import Mathlib

/-!
Verification of the castor-billing-system invoice microservice
(`src/microservice-python`). The embedding follows the Python source:

* `domain/model.py` — `Item` and `InvoiceCalculationResult` (pydantic models);
* `domain/rules.py` — `calculate_subtotal`, `calculate_taxes`, `calculate_discounts`;
* `application/mappers.py` — `map_to_result`;
* `application/services.py` — `InvoiceCalculatorService.calculate`;
* `infrastructure/auth.py` — `get_token_secret`, `verify_token`;
* `presentation/routes.py` — the `POST /calculate` handler `calculate_invoice`.

Numeric values are modelled as exact rationals (`ℚ`) and Python `int` as `ℤ`;
the specification's arithmetic statements are stated in exact arithmetic.
The process environment is modelled as a function `String → Option String`,
and a raised `HTTPException` as the error branch of an `Except`.
-/

namespace Castor

/-- A line item, from `domain/model.py` (`class Item(BaseModel)`):
`product: str`, `unit_price: float`, `quantity: int`. -/
structure Item where
  product : String
  unit_price : ℚ
  quantity : ℤ
deriving DecidableEq, Repr

/-- Result of invoice calculation, from `domain/model.py`
(`class InvoiceCalculationResult(BaseModel)`). -/
structure InvoiceCalculationResult where
  subtotal : ℚ
  taxes : ℚ
  discounts : ℚ
  total : ℚ
deriving DecidableEq, Repr

/-- From `domain/rules.py`:
`return sum(item.unit_price * item.quantity for item in items)`. -/
def calculate_subtotal (items : List Item) : ℚ :=
  (items.map (fun item => item.unit_price * (item.quantity : ℚ))).sum

/-- From `domain/rules.py`: `VAT = 0.19; return subtotal * VAT`. -/
def calculate_taxes (subtotal : ℚ) : ℚ :=
  subtotal * (19 / 100)

/-- From `domain/rules.py`:
`return subtotal * 0.05 if subtotal > 1000 else 0.0`. -/
def calculate_discounts (subtotal : ℚ) : ℚ :=
  if 1000 < subtotal then subtotal * (5 / 100) else 0

/-- From `application/mappers.py`: `total = subtotal + taxes - discounts`,
packed into the result DTO. -/
def map_to_result (subtotal taxes discounts : ℚ) : InvoiceCalculationResult :=
  ⟨subtotal, taxes, discounts, subtotal + taxes - discounts⟩

namespace InvoiceCalculatorService

/-- From `application/services.py` (`InvoiceCalculatorService.calculate`):
subtotal from the items, then taxes and discounts from the subtotal,
mapped to the result DTO. -/
def calculate (items : List Item) : InvoiceCalculationResult :=
  let subtotal := calculate_subtotal items
  let taxes := calculate_taxes subtotal
  let discounts := calculate_discounts subtotal
  map_to_result subtotal taxes discounts

end InvoiceCalculatorService

/-- A raised `fastapi.HTTPException`: status code and detail message. -/
structure HTTPException where
  status_code : ℕ
  detail : String
deriving DecidableEq, Repr

/-- From `infrastructure/auth.py`:
`return os.getenv("TOKEN_SECRET", "")` — the environment is a parameter. -/
def get_token_secret (env : String → Option String) : String :=
  (env "TOKEN_SECRET").getD ""

/-- From `infrastructure/auth.py` (`verify_token`): the `X-API-Token` header
value (`none` when the header is absent) is checked against the secret read
at call time; a missing header raises 401 "Token missing", a mismatching
one raises 401 "Invalid token", otherwise the function returns `True`. -/
def verify_token (env : String → Option String)
    (x_api_token : Option String) : Except HTTPException Bool :=
  let token_secret := get_token_secret env
  match x_api_token with
  | none => .error ⟨401, "Token missing"⟩
  | some t => if t ≠ token_secret then .error ⟨401, "Invalid token"⟩ else .ok true

/-- From `presentation/routes.py` (`calculate_invoice`): the `POST /calculate`
handler runs the `verify_token` dependency, and on success returns the
calculator's result (an HTTP 200 body). -/
def calculate_invoice (env : String → Option String)
    (x_api_token : Option String) (items : List Item) :
    Except HTTPException InvoiceCalculationResult :=
  match verify_token env x_api_token with
  | .error e => .error e
  | .ok _ => .ok (InvoiceCalculatorService.calculate items)

/-- The raw request-body fields for one item before pydantic validation:
each declared field of `Item` is either present (with a value of the declared
type) or absent. -/
structure RawItem where
  product : Option String
  unit_price : Option ℚ
  quantity : Option ℤ
deriving DecidableEq, Repr

/-- Pydantic validation of `class Item(BaseModel)` in `domain/model.py`:
the field declarations `product: str`, `unit_price: float`, `quantity: int`
check only that each field is present with the declared type; no further
constraint is declared, so any present values are accepted as they are.
A `none` result is reported by FastAPI as a 422 validation error. -/
def validateItem (r : RawItem) : Option Item :=
  match r.product, r.unit_price, r.quantity with
  | some p, some up, some q => some ⟨p, up, q⟩
  | _, _, _ => none

/-- Claim C1: for every list of line items, the result returned by
`InvoiceCalculatorService.calculate` satisfies
`total = subtotal + taxes - discounts` exactly. -/
theorem calculate_total_invariant (items : List Item) :
    (InvoiceCalculatorService.calculate items).total =
      (InvoiceCalculatorService.calculate items).subtotal +
        (InvoiceCalculatorService.calculate items).taxes -
        (InvoiceCalculatorService.calculate items).discounts := rfl

/-- Claim C2: `calculate_discounts s` equals `s * 0.05` when `s > 1000` and
`0` when `s ≤ 1000`; the threshold is exclusive, so input exactly `1000`
yields discount `0`. -/
theorem calculate_discounts_spec :
    (∀ s : ℚ, 1000 < s → calculate_discounts s = s * (5 / 100)) ∧
      (∀ s : ℚ, s ≤ 1000 → calculate_discounts s = 0) ∧
      calculate_discounts 1000 = 0 := by
  refine ⟨fun s hs => ?_, fun s hs => ?_, ?_⟩
  · simp [calculate_discounts, hs]
  · simp [calculate_discounts, not_lt.mpr hs]
  · simp [calculate_discounts]

/-- Witness for C2: both branches of `calculate_discounts_spec` instantiated
at concrete subtotals 2000 and 500. -/
theorem calculate_discounts_spec_witness :
    ((1000 : ℚ) < 2000 ∧ calculate_discounts 2000 = 2000 * (5 / 100)) ∧
      ((500 : ℚ) ≤ 1000 ∧ calculate_discounts 500 = 0) :=
  ⟨⟨by norm_num, calculate_discounts_spec.1 2000 (by norm_num)⟩,
    ⟨by norm_num, calculate_discounts_spec.2.1 500 (by norm_num)⟩⟩

/-- Claim C3: `calculate_subtotal` returns the sum over the items of
`unit_price * quantity` (stated as the right fold accumulating that
product), and the empty list yields `0`. -/
theorem calculate_subtotal_spec :
    (∀ items : List Item,
        calculate_subtotal items =
          items.foldr (fun item acc => item.unit_price * (item.quantity : ℚ) + acc) 0) ∧
      calculate_subtotal [] = 0 := by
  constructor
  · intro items
    induction items with
    | nil => rfl
    | cons hd tl ih => simpa [calculate_subtotal] using ih
  · rfl

/-- Claim C4: `calculate_taxes s` equals `s * 0.19` (the fixed 19% VAT rate)
for every subtotal `s`. -/
theorem calculate_taxes_spec (s : ℚ) : calculate_taxes s = s * (19 / 100) := rfl

/-- Claim C5: the `POST /calculate` handler rejects a request with no
`X-API-Token` header with 401 "Token missing", rejects a header that is not
string-equal to the configured secret with 401 "Invalid token", and on a
matching token returns the calculator's result (HTTP 200). -/
theorem calculate_invoice_auth_spec (env : String → Option String)
    (tok : Option String) (items : List Item) :
    calculate_invoice env tok items =
      match tok with
      | none => .error ⟨401, "Token missing"⟩
      | some t =>
          if t = get_token_secret env then
            .ok (InvoiceCalculatorService.calculate items)
          else .error ⟨401, "Invalid token"⟩ := by
  cases tok with
  | none => rfl
  | some t =>
      by_cases h : t = get_token_secret env <;>
        simp [calculate_invoice, verify_token, h]

/-- Counterexample to claim C6 as stated: pydantic validation of `Item`
accepts an item with an empty product name, a negative unit price and a
negative quantity, so such an item is not rejected and reaches the
calculator. -/
theorem item_validation_counterexample :
    ¬ (∀ (r : RawItem) (i : Item), validateItem r = some i →
        i.product ≠ "" ∧ 0 ≤ i.unit_price ∧ 0 ≤ i.quantity) := by
  intro h
  exact (h ⟨some "", some (-1), some (-1)⟩ ⟨"", -1, -1⟩ rfl).1 rfl

/-- Claim C6 (amended): validation of a line item succeeds exactly when all
three declared fields (`product`, `unit_price`, `quantity`) are present with
their declared types — a missing field is a 422 validation error — and the
accepted item carries the given field values unchanged; non-emptiness of the
product and non-negativity of price and quantity are not enforced. -/
theorem item_validation_spec :
    (∀ r : RawItem, (validateItem r).isSome ↔
        (r.product.isSome ∧ r.unit_price.isSome ∧ r.quantity.isSome)) ∧
      (∀ (p : String) (up : ℚ) (q : ℤ),
        validateItem ⟨some p, some up, some q⟩ = some ⟨p, up, q⟩) := by
  constructor
  · rintro ⟨p, up, q⟩
    cases p <;> cases up <;> cases q <;> simp [validateItem]
  · intro p up q
    rfl

/-- The subtotal of a list of items with non-negative prices and quantities
is non-negative. -/
theorem calculate_subtotal_nonneg (items : List Item)
    (h : ∀ i ∈ items, 0 ≤ i.unit_price ∧ 0 ≤ i.quantity) :
    0 ≤ calculate_subtotal items := by
  induction items with
  | nil => simp [calculate_subtotal]
  | cons hd tl ih =>
      have hhd := h hd (List.mem_cons_self hd tl)
      have htl := ih fun i hi => h i (List.mem_cons_of_mem hd hi)
      have hq : (0 : ℚ) ≤ (hd.quantity : ℚ) := by exact_mod_cast hhd.2
      have hprod : (0 : ℚ) ≤ hd.unit_price * (hd.quantity : ℚ) :=
        mul_nonneg hhd.1 hq
      simp only [calculate_subtotal, List.map_cons, List.sum_cons]
      exact add_nonneg hprod htl

/-- Claim C7: when every item has non-negative unit price and non-negative
quantity, all four fields of the calculator's result (`subtotal`, `taxes`,
`discounts`, `total`) are non-negative. -/
theorem calculate_nonneg (items : List Item)
    (h : ∀ i ∈ items, 0 ≤ i.unit_price ∧ 0 ≤ i.quantity) :
    0 ≤ (InvoiceCalculatorService.calculate items).subtotal ∧
      0 ≤ (InvoiceCalculatorService.calculate items).taxes ∧
      0 ≤ (InvoiceCalculatorService.calculate items).discounts ∧
      0 ≤ (InvoiceCalculatorService.calculate items).total := by
  have hs := calculate_subtotal_nonneg items h
  simp only [InvoiceCalculatorService.calculate, map_to_result,
    calculate_taxes, calculate_discounts]
  by_cases h1 : 1000 < calculate_subtotal items <;>
    simp only [h1, if_true, if_false, if_pos, if_neg, not_true, not_false_iff] <;>
    refine ⟨hs, by linarith, by linarith, by linarith⟩

/-- Witness for C7: the non-negativity theorem instantiated at the concrete
item list `[⟨A, 100, 2⟩]`. -/
theorem calculate_nonneg_witness :
    (∀ i ∈ [(⟨"A", 100, 2⟩ : Item)], 0 ≤ i.unit_price ∧ 0 ≤ i.quantity) ∧
      (0 ≤ (InvoiceCalculatorService.calculate [(⟨"A", 100, 2⟩ : Item)]).subtotal ∧
        0 ≤ (InvoiceCalculatorService.calculate [(⟨"A", 100, 2⟩ : Item)]).taxes ∧
        0 ≤ (InvoiceCalculatorService.calculate [(⟨"A", 100, 2⟩ : Item)]).discounts ∧
        0 ≤ (InvoiceCalculatorService.calculate [(⟨"A", 100, 2⟩ : Item)]).total) :=
  ⟨by decide, calculate_nonneg _ (by decide)⟩

/-- Claim C8: the calculator on `[⟨A, 100, 2⟩, ⟨B, 50, 1⟩]` yields subtotal
250, taxes 47.5, discounts 0, total 297.5, and on `[⟨A, 500, 3⟩]` yields
subtotal 1500, taxes 285, discounts 75, total 1710 (exact arithmetic). -/
theorem calculate_examples :
    InvoiceCalculatorService.calculate [⟨"A", 100, 2⟩, ⟨"B", 50, 1⟩] =
        ⟨250, 47.5, 0, 297.5⟩ ∧
      InvoiceCalculatorService.calculate [⟨"A", 500, 3⟩] =
        ⟨1500, 285, 75, 1710⟩ := by
  constructor <;>
    · simp only [InvoiceCalculatorService.calculate, calculate_subtotal,
        calculate_taxes, calculate_discounts, map_to_result, List.map_cons,
        List.map_nil, List.sum_cons, List.sum_nil,
        InvoiceCalculationResult.mk.injEq]
      norm_num

/-- Claim C9: `verify_token` raises a 401 error exactly when the token is
absent or differs from the secret read at call time; an unset `TOKEN_SECRET`
environment variable yields the empty string as secret, and then an
empty-string `X-API-Token` header is accepted. -/
theorem verify_token_spec :
    (∀ (env : String → Option String) (tok : Option String),
        (∃ e, verify_token env tok = .error e ∧ e.status_code = 401) ↔
          (tok = none ∨ ∃ t, tok = some t ∧ t ≠ get_token_secret env)) ∧
      (∀ env : String → Option String,
        env "TOKEN_SECRET" = none → get_token_secret env = "") ∧
      (∀ env : String → Option String,
        env "TOKEN_SECRET" = none → verify_token env (some "") = .ok true) := by
  refine ⟨fun env tok => ?_, fun env h => ?_, fun env h => ?_⟩
  · cases tok with
    | none =>
        refine iff_of_true ⟨⟨401, "Token missing"⟩, rfl, rfl⟩ (Or.inl rfl)
    | some t =>
        by_cases ht : t = get_token_secret env
        · simp [verify_token, ht]
        · simp only [verify_token, if_pos ht, ne_eq, ht, not_false_iff, if_true]
          exact iff_of_true ⟨⟨401, "Invalid token"⟩, rfl, rfl⟩
            (Or.inr ⟨t, rfl, ht⟩)
  · simp [get_token_secret, h]
  · simp [verify_token, get_token_secret, h]

/-- Witness for C9: with every environment variable unset, the secret is the
empty string and an empty-string token is accepted. -/
theorem verify_token_spec_witness :
    ((fun _ : String => (none : Option String)) "TOKEN_SECRET" = none) ∧
      get_token_secret (fun _ => none) = "" ∧
      verify_token (fun _ => none) (some "") = .ok true :=
  ⟨rfl, verify_token_spec.2.1 (fun _ => none) rfl,
    verify_token_spec.2.2 (fun _ => none) rfl⟩

/-- Claim C10: the calculator returns the same result on any two lists of
items that are permutations of one another. -/
theorem calculate_perm_invariant (l1 l2 : List Item) (h : l1.Perm l2) :
    InvoiceCalculatorService.calculate l1 = InvoiceCalculatorService.calculate l2 := by
  have hs : calculate_subtotal l1 = calculate_subtotal l2 :=
    List.Perm.sum_eq (h.map _)
  simp [InvoiceCalculatorService.calculate, hs]

/-- Witness for C10: swapping the two items of a concrete list leaves the
calculator's result unchanged. -/
theorem calculate_perm_invariant_witness :
    ([⟨"A", 100, 2⟩, ⟨"B", 50, 1⟩] : List Item).Perm
        [⟨"B", 50, 1⟩, ⟨"A", 100, 2⟩] ∧
      InvoiceCalculatorService.calculate [⟨"A", 100, 2⟩, ⟨"B", 50, 1⟩] =
        InvoiceCalculatorService.calculate [⟨"B", 50, 1⟩, ⟨"A", 100, 2⟩] :=
  ⟨List.Perm.swap _ _ _,
    calculate_perm_invariant _ _ (List.Perm.swap _ _ _)⟩

end Castor
